import Mathlib

/-!
Shallow embedding of the stopwatch library (`timer_lib.py`) and the minimal
2D point type (`point_class.py`).

Time is modelled as an exact rational number of seconds; each call that reads
the clock (`time.perf_counter()`) takes the observed timestamp as an explicit
argument.  The mutable `Timer` object becomes a record threaded through the
operations; a Python method that may `raise` returns a pair of an `Except`
result and the (possibly updated) record, so that a failing operation can be
seen to leave the record exactly as it was.
-/

namespace DsaPython

/-- Failure kinds of the `TimerException` raised by `timer_lib.py`.  The code
uses a single exception class with three distinct messages; the constructors
correspond to the messages "Timer is running, use stop() before starting
again", "Timer is not running, use start() first", and "Timer has not run yet,
use start() and stop() first". -/
inductive TimerError
  | alreadyRunning
  | notRunning
  | neverRun
deriving Repr, DecidableEq

/-- State of a `Timer` object: the fields `_start_time` and `_elapsed_time`
of the Python class, each `None` or a number of seconds. -/
structure Timer where
  _start_time : Option ℚ
  _elapsed_time : Option ℚ
deriving Repr, DecidableEq

/-- Construction (`Timer.__init__`): both fields are set to `None`. -/
def Timer.init : Timer := ⟨none, none⟩

/-- Method `Timer.start(self)` observing clock value `now`: raises if
`self._start_time is not None`, otherwise records `now`. -/
def Timer.start (t : Timer) (now : ℚ) : Except TimerError Unit × Timer :=
  if t._start_time.isSome then
    (Except.error TimerError.alreadyRunning, t)
  else
    (Except.ok (), { t with _start_time := some now })

/-- Method `Timer.stop(self)` observing clock value `now`: raises if
`self._start_time is None`, otherwise stores `now - self._start_time` into
`_elapsed_time` and resets `_start_time` to `None`. -/
def Timer.stop (t : Timer) (now : ℚ) : Except TimerError Unit × Timer :=
  match t._start_time with
  | none => (Except.error TimerError.notRunning, t)
  | some s => (Except.ok (), { _start_time := none, _elapsed_time := some (now - s) })

/-- Method `Timer.elapsed(self)`: raises if `self._elapsed_time is None`,
otherwise returns it.  It never mutates the object. -/
def Timer.elapsed (t : Timer) : Except TimerError ℚ :=
  match t._elapsed_time with
  | none => Except.error TimerError.neverRun
  | some e => Except.ok e

/-- Method `Timer.reset(self)`: sets both fields back to `None`. -/
def Timer.reset (_ : Timer) : Timer := ⟨none, none⟩

/-- Method `Timer.is_running(self)`: `self._start_time is not None`. -/
def Timer.is_running (t : Timer) : Bool := t._start_time.isSome

/-- Errors that can propagate out of the wrapper functions: either a
`TimerException` from the stopwatch itself, or an arbitrary exception raised
by a user-supplied callable. -/
inductive PyErr
  | timerErr (e : TimerError)
  | userErr (msg : String)
deriving Repr, DecidableEq

/-- Function `time_function(func, *args, **kwargs)`.  The callable applied to
its (fixed) arguments is modelled as its outcome `func : Except PyErr α`; the
two clock reads (inside `start` and inside `stop`) are the parameters `t0`
and `t1`.  The body is a line-by-line translation of

    timer = Timer(); timer.start(); result = func(...); timer.stop();
    return result, timer.elapsed()

where a `raise` at any point aborts the rest and the pair's second component
is the internal timer's state at that moment. -/
def time_function {α : Type} (t0 t1 : ℚ) (func : Except PyErr α) :
    Except PyErr (α × ℚ) × Timer :=
  let timer := Timer.init
  match timer.start t0 with
  | (Except.error e, tr) => (Except.error (PyErr.timerErr e), tr)
  | (Except.ok _, tr) =>
    match func with
    | Except.error e => (Except.error e, tr)
    | Except.ok result =>
      match tr.stop t1 with
      | (Except.error e, tr2) => (Except.error (PyErr.timerErr e), tr2)
      | (Except.ok _, tr2) =>
        match tr2.elapsed with
        | Except.error e => (Except.error (PyErr.timerErr e), tr2)
        | Except.ok el => (Except.ok (result, el), tr2)

/-- Value of the `speedup` entry computed by `compare_functions`: either a
finite ratio or the Python float `inf`. -/
inductive Speedup
  | val (q : ℚ)
  | posInf
deriving Repr, DecidableEq

/-- Dictionary returned by `compare_functions`, with its six keys. -/
structure CompareResult (α β : Type) where
  result1 : α
  result2 : β
  time1 : ℚ
  time2 : ℚ
  faster : String
  speedup : Speedup
deriving Repr, DecidableEq

/-- Function `compare_functions(func1, func2, *args, **kwargs)`: times both
callables via `time_function`; the four clock reads are `s1 e1 s2 e2`.  The
translation of the two computed entries is literal:
`faster = "func1" if time1 < time2 else "func2"` and
`speedup = max(time1, time2) / min(time1, time2) if min(time1, time2) > 0
else float('inf')`. -/
def compare_functions {α β : Type} (s1 e1 s2 e2 : ℚ)
    (func1 : Except PyErr α) (func2 : Except PyErr β) :
    Except PyErr (CompareResult α β) :=
  match (time_function s1 e1 func1).1 with
  | Except.error e => Except.error e
  | Except.ok (r1, time1) =>
    match (time_function s2 e2 func2).1 with
    | Except.error e => Except.error e
    | Except.ok (r2, time2) =>
      Except.ok
        { result1 := r1
          result2 := r2
          time1 := time1
          time2 := time2
          faster := if time1 < time2 then "func1" else "func2"
          speedup :=
            if min time1 time2 > 0 then Speedup.val (max time1 time2 / min time1 time2)
            else Speedup.posInf }

/-- The `with` statement over a `Timer` (`Timer.__enter__` / `Timer.__exit__`).
Entry calls `self.start()`; if that raises, the body and `__exit__` are
skipped and the error propagates with the object untouched.  Otherwise the
body runs (it may itself raise, modelled by an `Except.error` outcome, and may
mutate the timer); on every exit path `__exit__` then calls `self.stop()`.
`__exit__` returns `None`, so a body error is never suppressed: it propagates
after `stop` completes, unless `stop` itself raises, in which case the
`stop` error propagates. -/
def withTimer {α : Type} (eT xT : ℚ) (body : Timer → Except PyErr α × Timer)
    (t : Timer) : Except PyErr α × Timer :=
  match t.start eT with
  | (Except.error e, t1) => (Except.error (PyErr.timerErr e), t1)
  | (Except.ok _, t1) =>
    let r := body t1
    match r.2.stop xT with
    | (Except.error e, t3) => (Except.error (PyErr.timerErr e), t3)
    | (Except.ok _, t3) => (r.1, t3)

/-- A scope body that manually calls `timer.stop()` (observing clock value
`m`) before the scope ends, and otherwise completes without error. -/
def manualStopBody (m : ℚ) : Timer → Except PyErr Unit × Timer :=
  fun t =>
    match t.stop m with
    | (Except.error e, t1) => (Except.error (PyErr.timerErr e), t1)
    | (Except.ok _, t1) => (Except.ok (), t1)

/-- Trace alphabet for the `Timer` state machine: the mutating operations,
each `start`/`stop` carrying the clock value it observes.  (`elapsed` and
`is_running` never change the state.) -/
inductive Op
  | start (now : ℚ)
  | stop (now : ℚ)
  | reset
deriving Repr, DecidableEq

/-- One operation applied to a timer, keeping the resulting state (a raising
operation leaves the state as the method left it). -/
def runOp (t : Timer) : Op → Timer
  | Op.start n => (t.start n).2
  | Op.stop n => (t.stop n).2
  | Op.reset => t.reset

/-- State reached from a fresh `Timer` after a whole trace of operations. -/
def run (ops : List Op) : Timer := ops.foldl runOp Timer.init

/-- Specification-side backward scan, on the reversed trace (most recent
operation first): the timestamp of the most recent start that succeeded and
has not yet been matched by a stop or wiped by a reset — i.e. the start mark
of the currently running cycle, if any.  After a stop the timer is idle
whether or not that stop succeeded; a start succeeds exactly when nothing is
running behind it. -/
def markRev : List Op → Option ℚ
  | [] => none
  | Op.reset :: _ => none
  | Op.stop _ :: _ => none
  | Op.start n :: r =>
    match markRev r with
    | none => some n
    | some s => some s

/-- Specification-side backward scan, on the reversed trace: the most recent
matched start/stop pair of timestamps, provided no reset has happened since.
A stop matches when a cycle was running behind it; starts (successful or
failed) and failed stops leave the most recent completed cycle intact; a
reset erases it. -/
def cycRev : List Op → Option (ℚ × ℚ)
  | [] => none
  | Op.reset :: _ => none
  | Op.start _ :: r => cycRev r
  | Op.stop e :: r =>
    match markRev r with
    | some s => some (s, e)
    | none => cycRev r

/-- Failure kind of `Point.__add__`: the `TypeError("add only works for Point
type")` raised on a non-`Point` operand. -/
inductive PointError
  | typeMismatch
deriving Repr, DecidableEq

/-- The `Point` class of `point_class.py`: numeric fields `x` and `y`. -/
structure Point where
  x : ℚ
  y : ℚ
deriving Repr, DecidableEq

/-- Possible right operands of `Point.__add__`, as a closed set of variants:
an actual `Point`; a non-`Point` object that nevertheless has numeric fields
`x` and `y` (to express that structural capability is not enough for the
`isinstance` check); and a plain number. -/
inductive Operand
  | isPoint (p : Point)
  | pointLike (x y : ℚ)
  | scalar (n : ℚ)
deriving Repr, DecidableEq

/-- Method `Point.__add__(self, other)`: if `isinstance(other, Point)`,
construct and return the fresh point `Point(self.x + other.x, self.y +
other.y)` (neither operand is written to); otherwise raise `TypeError`. -/
def Point.add (p : Point) (other : Operand) : Except PointError Point :=
  match other with
  | Operand.isPoint q => Except.ok ⟨p.x + q.x, p.y + q.y⟩
  | Operand.pointLike _ _ => Except.error PointError.typeMismatch
  | Operand.scalar _ => Except.error PointError.typeMismatch

/-! Theorems about the embedded program. -/

/-- C6: for every freshly constructed stopwatch (before any other operation),
`is_running()` returns false and `elapsed()` fails with `NeverRun`. -/
theorem freshTimer_not_running_and_neverRun :
    Timer.init.is_running = false ∧
    Timer.init.elapsed = Except.error TimerError.neverRun :=
  ⟨rfl, rfl⟩

/-- C7: `reset` succeeds from every state (it is a total operation on any
`Timer`), and afterwards the start mark is cleared (state `Idle`),
`is_running()` returns false, and `elapsed()` fails with `NeverRun`. -/
theorem reset_always_clears (t : Timer) :
    (t.reset)._start_time = none ∧
    (t.reset).is_running = false ∧
    (t.reset).elapsed = Except.error TimerError.neverRun :=
  ⟨rfl, rfl, rfl⟩

/-- C2: failing operations are atomic.  `start` on a running timer fails with
`AlreadyRunning` and returns the object bit-for-bit unchanged (so the
recorded start mark persists and the state remains `Running`); `stop` on an
idle timer fails with `NotRunning` and returns the object unchanged (so the
stored elapsed duration persists and the state remains `Idle`). -/
theorem timer_failures_atomic (t : Timer) (now : ℚ) :
    (t.is_running = true →
      t.start now = (Except.error TimerError.alreadyRunning, t)) ∧
    (t.is_running = false →
      t.stop now = (Except.error TimerError.notRunning, t)) := by
  constructor
  · intro h
    simp only [Timer.is_running] at h
    simp [Timer.start, h]
  · intro h
    simp only [Timer.is_running] at h
    cases h2 : t._start_time with
    | none => simp [Timer.stop, h2]
    | some s => rw [h2] at h; simp at h

/-- Witness for C2 at concrete states: a running timer with mark 2, and an
idle timer holding elapsed duration 3. -/
theorem timer_failures_atomic_witness :
    Timer.start ⟨some 2, none⟩ 5 =
      (Except.error TimerError.alreadyRunning, ⟨some 2, none⟩) ∧
    Timer.stop ⟨none, some 3⟩ 5 =
      (Except.error TimerError.notRunning, ⟨none, some 3⟩) :=
  ⟨(timer_failures_atomic ⟨some 2, none⟩ 5).1 rfl,
   (timer_failures_atomic ⟨none, some 3⟩ 5).2 rfl⟩

/-- C8: adding a `Point` to a `Point` yields the fresh pairwise-sum point
(the embedding's `add` reads but never writes its operands); adding any
non-`Point` operand fails with `TypeMismatch`, even an operand that has
numeric `x` and `y` fields, since only strict type identity is accepted. -/
theorem point_add_spec (p q : Point) (x y n : ℚ) :
    p.add (Operand.isPoint q) = Except.ok ⟨p.x + q.x, p.y + q.y⟩ ∧
    p.add (Operand.pointLike x y) = Except.error PointError.typeMismatch ∧
    p.add (Operand.scalar n) = Except.error PointError.typeMismatch :=
  ⟨rfl, rfl, rfl⟩

/-- C4: `time_function` on a callable that returns `v` yields the pair of `v`
and the elapsed duration `t1 - t0`, with its fresh internal stopwatch stopped;
on a callable that raises `e`, the error `e` propagates unmodified and the
internal stopwatch is left running (mark `t0` recorded, no elapsed stored),
since `stop` runs only on normal return. -/
theorem time_function_spec {α : Type} (t0 t1 : ℚ) (v : α) (e : PyErr) :
    time_function t0 t1 (Except.ok v) =
      (Except.ok (v, t1 - t0), ⟨none, some (t1 - t0)⟩) ∧
    time_function t0 t1 (Except.error e : Except PyErr α) =
      (Except.error e, ⟨some t0, none⟩) ∧
    (⟨some t0, none⟩ : Timer).is_running = true :=
  ⟨rfl, rfl, rfl⟩

/-- C10: if, inside a `with Timer()` scope, the body manually calls `stop`
(and otherwise completes without error), then `__exit__`'s unconditional
`stop` call fails with `NotRunning`, which escapes the otherwise error-free
scope; the timer keeps the elapsed value `m - eT` stored by the manual stop. -/
theorem withTimer_manualStop_raises (eT m xT : ℚ) :
    (manualStopBody m ⟨some eT, none⟩).1 = Except.ok () ∧
    withTimer eT xT (manualStopBody m) Timer.init =
      (Except.error (PyErr.timerErr TimerError.notRunning), ⟨none, some (m - eT)⟩) :=
  ⟨rfl, rfl⟩

/-- C3: scoped acquisition.  First conjunct: if the timer is already running,
scope entry's `start` fails, the whole scope fails with `AlreadyRunning`, and
the timer is returned bit-for-bit unchanged — in particular no `stop` was
attempted.  Second conjunct: if entry succeeds, the body sees the started
timer; whatever outcome `r` the body produces (normal value or propagating
error) and as long as it leaves the timer running with mark `s`, scope exit
calls `stop` (final state idle with elapsed `xT - s` stored) and then the
body's outcome `r` propagates unsuppressed. -/
theorem withTimer_scoped_spec {α : Type} (t : Timer) (eT xT : ℚ)
    (body : Timer → Except PyErr α × Timer) :
    (t.is_running = true →
      withTimer eT xT body t =
        (Except.error (PyErr.timerErr TimerError.alreadyRunning), t)) ∧
    (∀ r t2 s, t.is_running = false →
      body { t with _start_time := some eT } = (r, t2) →
      t2._start_time = some s →
      withTimer eT xT body t = (r, ⟨none, some (xT - s)⟩)) := by
  constructor
  · intro h
    simp only [Timer.is_running] at h
    simp [withTimer, Timer.start, h]
  · intro r t2 s h hb hs
    simp only [Timer.is_running] at h
    simp [withTimer, Timer.start, h, hb, Timer.stop, hs]

/-- Witness for C3: entry failure on a running timer with mark 1, and the
error-propagation path for a body that raises on a fresh timer. -/
theorem withTimer_scoped_spec_witness :
    withTimer 0 5
        (fun s => ((Except.error (PyErr.userErr "boom") : Except PyErr Unit), s))
        ⟨some 1, none⟩ =
      (Except.error (PyErr.timerErr TimerError.alreadyRunning), ⟨some 1, none⟩) ∧
    withTimer 0 5
        (fun s => ((Except.error (PyErr.userErr "boom") : Except PyErr Unit), s))
        Timer.init =
      (Except.error (PyErr.userErr "boom"), ⟨none, some 5⟩) := by
  constructor
  · exact (withTimer_scoped_spec ⟨some 1, none⟩ 0 5 _).1 rfl
  · have h := (withTimer_scoped_spec Timer.init 0 5
      (fun s => ((Except.error (PyErr.userErr "boom") : Except PyErr Unit), s))).2
      (Except.error (PyErr.userErr "boom")) ⟨some 0, none⟩ 0 rfl rfl rfl
    simpa using h

/-- Helper: the result component of `time_function` on a normally returning
callable is the pair of its value and the difference of the two clock reads. -/
theorem time_function_ok_fst {α : Type} (t0 t1 : ℚ) (v : α) :
    (time_function t0 t1 (Except.ok v)).1 = Except.ok (v, t1 - t0) := rfl

/-- C1 counterexample: a run of `compare_functions` in which both measured
durations are exactly 1 reports `"func2"` as faster, not the first callable's
label `"func1"` as the claim states. -/
theorem compare_tie_favors_second_cex :
    (compare_functions 0 1 2 3 (Except.ok (0 : ℤ)) (Except.ok (0 : ℤ))).map
        CompareResult.time1 = Except.ok 1 ∧
    (compare_functions 0 1 2 3 (Except.ok (0 : ℤ)) (Except.ok (0 : ℤ))).map
        CompareResult.time2 = Except.ok 1 ∧
    (compare_functions 0 1 2 3 (Except.ok (0 : ℤ)) (Except.ok (0 : ℤ))).map
        CompareResult.faster = Except.ok "func2" ∧
    ("func2" : String) ≠ "func1" := by
  refine ⟨?_, ?_, ?_, by decide⟩ <;>
    simp [compare_functions, time_function_ok_fst, Except.map] <;> norm_num

/-- C1 amended: `compare_functions` reports the label of whichever callable's
measured duration is strictly smaller, and when the two durations are exactly
equal it reports the label of the SECOND callable (`"func2"`), because the
code picks `"func1"` only on a strict `time1 < time2`. -/
theorem compare_faster_label {α β : Type} (s1 e1 s2 e2 : ℚ) (v1 : α) (v2 : β) :
    (e1 - s1 < e2 - s2 →
      (compare_functions s1 e1 s2 e2 (Except.ok v1) (Except.ok v2)).map
        CompareResult.faster = Except.ok "func1") ∧
    (e2 - s2 ≤ e1 - s1 →
      (compare_functions s1 e1 s2 e2 (Except.ok v1) (Except.ok v2)).map
        CompareResult.faster = Except.ok "func2") := by
  constructor
  · intro h
    simp only [compare_functions, time_function_ok_fst, Except.map]
    rw [if_pos h]
  · intro h
    simp only [compare_functions, time_function_ok_fst, Except.map]
    rw [if_neg (not_lt.mpr h)]

/-- Witness for C1's amended claim: durations 1 and 3 give `"func1"`, the
reversed pair gives `"func2"`. -/
theorem compare_faster_label_witness :
    (compare_functions 0 1 0 3 (Except.ok (0 : ℤ)) (Except.ok (0 : ℤ))).map
        CompareResult.faster = Except.ok "func1" ∧
    (compare_functions 0 3 0 1 (Except.ok (0 : ℤ)) (Except.ok (0 : ℤ))).map
        CompareResult.faster = Except.ok "func2" :=
  ⟨(compare_faster_label 0 1 0 3 (0 : ℤ) (0 : ℤ)).1 (by norm_num),
   (compare_faster_label 0 3 0 1 (0 : ℤ) (0 : ℤ)).2 (by norm_num)⟩

/-- C5: the reported `speedup` is the slower (larger) measured duration
divided by the faster (smaller) one whenever the faster duration is positive,
and is positive infinity when the faster duration is exactly zero; in both
cases `compare_functions` returns normally, so no division error is raised. -/
theorem compare_speedup_spec {α β : Type} (s1 e1 s2 e2 : ℚ) (v1 : α) (v2 : β) :
    (0 < min (e1 - s1) (e2 - s2) →
      (compare_functions s1 e1 s2 e2 (Except.ok v1) (Except.ok v2)).map
        CompareResult.speedup =
        Except.ok (Speedup.val (max (e1 - s1) (e2 - s2) / min (e1 - s1) (e2 - s2)))) ∧
    (min (e1 - s1) (e2 - s2) = 0 →
      (compare_functions s1 e1 s2 e2 (Except.ok v1) (Except.ok v2)).map
        CompareResult.speedup = Except.ok Speedup.posInf) := by
  constructor
  · intro h
    simp only [compare_functions, time_function_ok_fst, Except.map]
    rw [if_pos h]
  · intro h
    simp only [compare_functions, time_function_ok_fst, Except.map]
    rw [if_neg (by rw [h]; exact lt_irrefl 0)]

/-- Witness for C5: durations 2 and 1 give speedup 2; durations 0 and 1 give
positive infinity. -/
theorem compare_speedup_spec_witness :
    (compare_functions 0 2 0 1 (Except.ok (0 : ℤ)) (Except.ok (0 : ℤ))).map
        CompareResult.speedup = Except.ok (Speedup.val 2) ∧
    (compare_functions 0 0 0 1 (Except.ok (0 : ℤ)) (Except.ok (0 : ℤ))).map
        CompareResult.speedup = Except.ok Speedup.posInf := by
  constructor
  · have h := (compare_speedup_spec 0 2 0 1 (0 : ℤ) (0 : ℤ)).1 (by norm_num)
    rw [h]
    norm_num
  · exact (compare_speedup_spec 0 0 0 1 (0 : ℤ) (0 : ℤ)).2 (by norm_num)

/-- C9: invariant over every reachable stopwatch state.  After any trace of
operations from a fresh timer, the stored `_elapsed_time` is present exactly
when the trace contains a matched start/stop pair not followed by a `reset`,
and it then equals the stop timestamp minus the start timestamp of the most
recent such pair (`cycRev` scans the trace from its most recent operation
backward): so once set it records the most recent matched cycle, is preserved
by failing operations and by later starts, is overwritten only by the stop of
a new complete cycle, and is cleared only by `reset`.  The first conjunct is
the matching invariant for the start mark. -/
theorem run_elapsed_is_lastCycle (ops : List Op) :
    (run ops)._start_time = markRev ops.reverse ∧
    (run ops)._elapsed_time =
      (cycRev ops.reverse).map (fun p => p.2 - p.1) := by
  induction ops using List.reverseRecOn with
  | nil => exact ⟨rfl, rfl⟩
  | append_singleton l a ih =>
    obtain ⟨ih1, ih2⟩ := ih
    have hrun : run (l ++ [a]) = runOp (run l) a := by
      simp [run, List.foldl_append]
    have hrev : (l ++ [a]).reverse = a :: l.reverse := by simp
    rw [hrun, hrev]
    cases a with
    | start n =>
      cases h : (run l)._start_time with
      | none =>
        have hm : markRev l.reverse = none := ih1.symm.trans h
        constructor
        · simp [runOp, Timer.start, h, markRev, hm]
        · simp [runOp, Timer.start, h, cycRev, ih2]
      | some s =>
        have hm : markRev l.reverse = some s := ih1.symm.trans h
        constructor
        · simp [runOp, Timer.start, h, markRev, hm]
        · simp [runOp, Timer.start, h, cycRev, ih2]
    | stop n =>
      cases h : (run l)._start_time with
      | none =>
        have hm : markRev l.reverse = none := ih1.symm.trans h
        constructor
        · simp [runOp, Timer.stop, h, markRev]
        · simp [runOp, Timer.stop, h, cycRev, hm, ih2]
      | some s =>
        have hm : markRev l.reverse = some s := ih1.symm.trans h
        constructor
        · simp [runOp, Timer.stop, h, markRev]
        · simp [runOp, Timer.stop, h, cycRev, hm]
    | reset => exact ⟨rfl, rfl⟩

end DsaPython
